import Mathlib

/-!
Verification of the bricklink-scraper fetch/cache/rates/scrape layers.

Shallow embedding of `bricklink_scraper` (config.py, utils.py, scrape.py,
main.py).  Stateful code is modelled by explicit state passing: the network
is a script of attempt outcomes, the random session choice is an oracle of
indices, the on-disk page cache is a list of entries, and the persisted
store is a pair of row lists.  Exceptions are modelled by an `Err` sum type
whose constructors correspond one-to-one to the exception classes the code
raises (`RequestLimitReached`, `requests.HTTPError` from
`raise_for_status`, `requests.ConnectionError`, `ScrapeError`,
`RuntimeError`, `KeyError`).
-/

namespace Bricklink

/-! ## String helpers (Python `str.lower`, `str.upper`, `in`) -/

/-- Python `str.lower()` (ASCII-sufficient: the strings involved are ASCII). -/
def strLower (s : String) : String := ⟨s.data.map Char.toLower⟩

/-- Python `str.upper()`. -/
def strUpper (s : String) : String := ⟨s.data.map Char.toUpper⟩

/-- Is `sub` a contiguous sublist of `l`?  (Python `sub in s`.) -/
def listContainsSub (sub : List Char) : List Char → Bool
  | [] => sub.isEmpty
  | c :: rest => sub.isPrefixOf (c :: rest) || listContainsSub sub rest

/-- Python `sub in s` on strings. -/
def strContainsSub (s sub : String) : Bool := listContainsSub sub.data s.data

/-! ## Exception classes (utils.py:40-45, plus library exceptions) -/

/-- The exception classes raised by the fetch/scrape code.
`scriptExhausted` is a modelling artifact: the scripted environment ran out
of outcomes while the loop wanted to issue another request; no theorem
relies on it. -/
inductive Err
  | requestLimitReached
  | httpError (status : Nat)
  | connectionError (msg : String)
  | scrapeError (msg : String)
  | runtimeError (msg : String)
  | keyError (key : String)
  | scriptExhausted
deriving DecidableEq, Repr

/-- Does an `Err` correspond to Python's `ScrapeError` class (the class used
for structural scrape failures)? -/
def isScrapeError : Err → Bool
  | .scrapeError _ => true
  | _ => false

/-! ## config.py constants -/

/-- config.py: `MAX_REQUEST_RETRIES = 5`. -/
def MAX_REQUEST_RETRIES : Nat := 5

/-- config.py: `CURRENCY_NAME_MAP` (bricklink currency name to standard name). -/
def CURRENCY_NAME_MAP : List (String × String) :=
  [("us", "usd"), ("rol", "ron"), ("au", "aud"), ("ca", "cad")]

/-- config.py: `CONVERSION_RATES_EXPIRY_TIME = timedelta(hours=6)`,
in minutes (all rate timestamps in this model are in minutes). -/
def CONVERSION_RATES_EXPIRY_TIME : Int := 6 * 60

/-! ## Fetch layer (utils.py `RequestUtil._download_page`, lines 317-399) -/

/-- One request session from `RequestUtil._request_sessions`: the tuple
`(requests.Session(), headers, counter)`.  `ident` identifies the session
identity (its sampled user-agent fingerprint), `count` is the per-session
request counter. -/
structure Session where
  ident : Nat
  count : Nat
deriving DecidableEq, Repr

/-- The observable parts of a `requests` response: final status code, final
URL after redirects, body text, and the number of redirect hops
(`len(resp.history)`). -/
structure HttpResponse where
  status : Nat
  finalUrl : String
  text : String
  history : Nat
deriving DecidableEq, Repr

/-- Outcome of one `session.get` call: a timeout, a `ConnectionError`
with message `msg`, or a response. -/
inductive AttemptOutcome
  | timeout
  | connError (msg : String)
  | response (r : HttpResponse)
deriving DecidableEq, Repr

/-- One scripted loop iteration: the index `random.choice` picks (taken
modulo the current pool size) and the network outcome of the attempt. -/
structure Step where
  choice : Nat
  outcome : AttemptOutcome
deriving DecidableEq, Repr

/-- Observable events of the download loop, in order: a GET issued by a
session identity (preceded by the courtesy pause), a session retirement on
a quota signal, the randomized retry-pause sleep after an unexpected
status, and the 20-minute offline sleep. -/
inductive TraceEvent
  | attempt (ident : Nat)
  | retired (ident : Nat)
  | retrySleep
  | offlineSleep
deriving DecidableEq, Repr

/-- Result of `_download_page`: the returned text or raised exception, the
remaining session pool, the total request counter, and the event trace. -/
structure DlResult where
  result : Except Err String
  sessions : List Session
  requests : Nat
  trace : List TraceEvent
deriving Repr

/-- Prepend trace events to a loop result. -/
def addEvents (evs : List TraceEvent) (r : DlResult) : DlResult :=
  { r with trace := evs ++ r.trace }

/-- The quota-signal classification of `_download_page` (utils.py:349-354):
`timed_out or resp.status_code == 429 or "quota%20exceeded" in
resp.url.lower() or "quota exceeded" in resp.text.lower()`.  A
`ConnectionError` whose message contains "timed out" is classified as a
timeout (utils.py:344-347). -/
def quotaSignal : AttemptOutcome → Bool
  | .timeout => true
  | .connError msg => strContainsSub (strLower msg) "timed out"
  | .response r =>
      r.status == 429 || strContainsSub (strLower r.finalUrl) "quota%20exceeded"
        || strContainsSub (strLower r.text) "quota exceeded"

/-- The `while self._request_sessions:` loop of `_download_page`
(utils.py:326-399).  Arguments track `daily_offline_retries` and
`unexpected_status_retries`; each iteration consumes one scripted `Step`.
When the pool is empty the loop exits and raises
`ScrapeError("Bricklinks Quota Exceeded!")` (utils.py:398-399). -/
def downloadLoop (url : String) (allow : Option (String → Bool)) :
    Nat → Nat → List Session → Nat → List Step → DlResult
  | _offlineRetries, _statusRetries, [], requests, _steps =>
      ⟨.error (.scrapeError "Bricklinks Quota Exceeded!"), [], requests, []⟩
  | _offlineRetries, _statusRetries, s :: ss, requests, [] =>
      ⟨.error .scriptExhausted, s :: ss, requests, []⟩
  | offlineRetries, statusRetries, s :: ss, requests, step :: rest =>
      let pool := s :: ss
      let idx := step.choice % pool.length
      let sess := pool.getD idx s
      let requests1 := requests + 1
      let pool1 := pool.set idx { sess with count := sess.count + 1 }
      match step.outcome with
      | .connError msg =>
          if strContainsSub (strLower msg) "timed out" then
            addEvents [.attempt sess.ident, .retired sess.ident]
              (downloadLoop url allow offlineRetries statusRetries
                (pool1.eraseIdx idx) requests1 rest)
          else
            ⟨.error (.connectionError msg), pool1, requests1, [.attempt sess.ident]⟩
      | .timeout =>
          addEvents [.attempt sess.ident, .retired sess.ident]
            (downloadLoop url allow offlineRetries statusRetries
              (pool1.eraseIdx idx) requests1 rest)
      | .response r =>
          if r.status == 429 || strContainsSub (strLower r.finalUrl) "quota%20exceeded"
              || strContainsSub (strLower r.text) "quota exceeded" then
            addEvents [.attempt sess.ident, .retired sess.ident]
              (downloadLoop url allow offlineRetries statusRetries
                (pool1.eraseIdx idx) requests1 rest)
          else if r.status ≠ 200 ∧ statusRetries < MAX_REQUEST_RETRIES then
            addEvents [.attempt sess.ident, .retrySleep]
              (downloadLoop url allow offlineRetries (statusRetries + 1)
                pool1 requests1 rest)
          else if 400 ≤ r.status ∧ r.status < 600 then
            ⟨.error (.httpError r.status), pool1, requests1, [.attempt sess.ident]⟩
          else if r.history ≠ 0 then
            if strContainsSub r.finalUrl "oops.asp?err=dailyOffline" then
              if offlineRetries < 10 then
                addEvents [.attempt sess.ident, .offlineSleep]
                  (downloadLoop url allow (offlineRetries + 1) statusRetries
                    pool1 requests1 rest)
              else
                ⟨.error (.scrapeError "Bricklink offline for more than 200 minutes"),
                  pool1, requests1, [.attempt sess.ident]⟩
            else if (match allow with | some p => p r.finalUrl | none => false) then
              ⟨.ok r.text, pool1, requests1, [.attempt sess.ident]⟩
            else
              ⟨.error (.scrapeError ("Unexpected redirect when downloading page: "
                  ++ url ++ " -> " ++ r.finalUrl)),
                pool1, requests1, [.attempt sess.ident]⟩
          else
            ⟨.ok r.text, pool1, requests1, [.attempt sess.ident]⟩

/-- `RequestUtil._download_page` (utils.py:317-399): the request-count
limit is checked first (utils.py:318-322), then the session loop runs. -/
def downloadPage (url : String) (allow : Option (String → Bool))
    (requestsLimit : Option Nat) (requests : Nat) (sessions : List Session)
    (steps : List Step) : DlResult :=
  match requestsLimit with
  | some l =>
      if requests ≥ l then ⟨.error .requestLimitReached, sessions, requests, []⟩
      else downloadLoop url allow 0 0 sessions requests steps
  | none => downloadLoop url allow 0 0 sessions requests steps

/-! ## Page cache (`RequestUtil.get_page`, utils.py:193-234) -/

/-- One stored page file for a URL: its filename timestamp, its body, and
whether the gzip file is readable (`ok = false` models
`gzip.BadGzipFile`). -/
structure CacheEntry where
  ts : Nat
  body : String
  ok : Bool
deriving DecidableEq, Repr

/-- Insert an entry into a list kept in descending-timestamp order. -/
def insertEntryDesc (e : CacheEntry) : List CacheEntry → List CacheEntry
  | [] => [e]
  | x :: xs => if x.ts ≤ e.ts then e :: x :: xs else x :: insertEntryDesc e xs

/-- `reversed(sorted(glob_matches))` (utils.py:203): the stored versions in
descending timestamp order (the fixed-width timestamp filename format makes
lexicographic filename order coincide with timestamp order). -/
def sortCacheDesc : List CacheEntry → List CacheEntry
  | [] => []
  | e :: rest => insertEntryDesc e (sortCacheDesc rest)

/-- The cached-version scan of `get_page` (utils.py:203-220) over the
versions in most-recent-first order: if the age of the version under
consideration exceeds `cacheTimeout`, break (full miss — every older
version is older still); otherwise read it, skipping it only when the
gzip file is corrupt. -/
def cacheLookup (now cacheTimeout : Nat) : List CacheEntry → Option CacheEntry
  | [] => none
  | e :: rest =>
      if now - e.ts > cacheTimeout then none
      else if e.ok then some e
      else cacheLookup now cacheTimeout rest

/-- utils.py:89-92 `Page`. -/
structure Page where
  source : String
  timestamp : Nat
deriving DecidableEq, Repr

/-- Result of `get_page`: the returned page or raised exception, the page
cache directory afterwards, and the `_download_page` invocation result
(`none` when the cache satisfied the request with no network activity). -/
structure GetPageResult where
  page : Except Err Page
  cacheAfter : List CacheEntry
  download : Option DlResult
deriving Repr

/-- `RequestUtil.get_page` (utils.py:193-234).  `cache` holds the stored
versions for this URL (the glob result); on a miss `_download_page` runs
and, only on success, the page is written to the cache with the current
timestamp `now`. -/
def getPage (url : String) (now cacheTimeout : Nat) (cache : List CacheEntry)
    (requestsLimit : Option Nat) (requests : Nat) (sessions : List Session)
    (allow : Option (String → Bool)) (steps : List Step) : GetPageResult :=
  match cacheLookup now cacheTimeout (sortCacheDesc cache) with
  | some e => ⟨.ok ⟨e.body, e.ts⟩, cache, none⟩
  | none =>
      let dl := downloadPage url allow requestsLimit requests sessions steps
      match dl.result with
      | .error err => ⟨.error err, cache, some dl⟩
      | .ok body => ⟨.ok ⟨body, now⟩, ⟨now, body, true⟩ :: cache, some dl⟩

/-! ## Conversion rates (`RequestUtil._get_euro_conversion_rates_for_timestamp`,
utils.py:244-277, and `convert_to_euro`, utils.py:236-242) -/

/-- `abs(timestamp - file_ts)` on minute-valued timestamps. -/
def tsDiff (a b : Int) : Nat := (a - b).natAbs

/-- `max(self.euro_conversion_rate_files.keys())` (only used on a nonempty
index; the `[]` case is never reached by `ratesForTimestamp`). -/
def latestTimestamp : List Int → Int
  | [] => 0
  | t :: ts => ts.foldl max t

/-- `min(ts_differences, key=lambda el: el[1])` (utils.py:258-262): the
first timestamp of minimal absolute difference to `target` (Python's `min`
keeps the earliest minimum). -/
def closestTo (target : Int) (t : Int) (ts : List Int) : Int :=
  ts.foldl (fun best x => if tsDiff target x < tsDiff target best then x else best) t

/-- The refresh step of `_get_euro_conversion_rates_for_timestamp`
(utils.py:252-256): download a new table (timestamped with the current
wall-clock time `now`, appended in dict insertion order) when no snapshot
exists, or when the requested timestamp is at or past the most recent
snapshot and that snapshot is older than the expiry window measured
against `now`. -/
def refreshFiles (now target : Int) (files : List Int) : List Int :=
  if files = [] ∨ (target ≥ latestTimestamp files ∧
      now - latestTimestamp files > CONVERSION_RATES_EXPIRY_TIME) then
    files ++ [now]
  else files

/-- Outcome of a rates lookup: the snapshot index after any refresh, the
chosen snapshot timestamp, and whether the too-far warning was emitted. -/
structure RatesLookup where
  files : List Int
  chosen : Int
  warning : Bool
deriving DecidableEq, Repr

/-- `_get_euro_conversion_rates_for_timestamp` (utils.py:244-277), where
`target` is the page timestamp and `now` the current wall-clock time.
Returns `none` only if the snapshot index were empty after refresh, which
cannot happen (Python's `min` on an empty sequence would raise). -/
def ratesForTimestamp (now target : Int) (files0 : List Int) : Option RatesLookup :=
  match refreshFiles now target files0 with
  | [] => none
  | t :: ts =>
      let chosen := closestTo target t ts
      some ⟨t :: ts, chosen,
        decide ((tsDiff target chosen : Int) > CONVERSION_RATES_EXPIRY_TIME)⟩

/-- The currency-code normalization of `convert_to_euro` (utils.py:241):
`CURRENCY_NAME_MAP.get(currency.lower(), currency).upper()`. -/
def normalizedCurrencyCode (currency : String) : String :=
  strUpper ((CURRENCY_NAME_MAP.lookup (strLower currency)).getD currency)

/-- `RequestUtil.convert_to_euro` (utils.py:236-242) given the conversion
table selected for the page timestamp.  The subscript
`euro_conversion_rates[currency_name]` raises `KeyError` on an unknown
code. -/
def convertToEuro (euroConversionRates : List (String × ℚ)) (currency : String)
    (amount : ℚ) : Except Err ℚ :=
  let currencyName := normalizedCurrencyCode currency
  match euroConversionRates.lookup currencyName with
  | some rate => .ok (amount / rate)
  | none => .error (.keyError currencyName)

/-! ## Category item-list traversal (`CategoryScrape.scrape_parts`,
scrape.py:222-280) -/

/-- The ids collected across the list pages (scrape.py:255-266): page 1's
ids followed by the ids of pages `2 .. totalPages`. -/
def collectedParts (totalPages : Nat) (pageIds : Nat → List String) : List String :=
  pageIds 1 ++ (List.range' 2 (totalPages - 1)).flatMap pageIds

/-- `CategoryScrape.scrape_parts` (scrape.py:222-280), fetching and
persistence abstracted away: `partsCount` is the category page's declared
count, `firstHasPagination` whether page 1 has the pagination div,
`firstSingleId` the id extracted in the single-part redirect layout,
`bannerMatches` the regex matches `(total_items, current_page,
total_pages)` of the pagination banner, and `pageIds` the ids parsed from
each list page.  Returns the collected id list or the raised
`ScrapeError`. -/
def scrapeParts (categoryName : String) (partsCount : Nat)
    (firstHasPagination : Bool) (firstSingleId : String)
    (bannerMatches : List (Nat × Nat × Nat))
    (pageIds : Nat → List String) : Except Err (List String) :=
  let collected : Except Err (List String) :=
    if partsCount = 1 ∧ firstHasPagination = false then
      .ok [firstSingleId]
    else
      match bannerMatches with
      | [(totalItems, currentPage, totalPages)] =>
          if currentPage ≠ 1 then
            .error (.scrapeError "Failed to parse item and page numbers")
          else
            let parts := collectedParts totalPages pageIds
            if parts.length ≠ totalItems then
              .error (.scrapeError ("Total number or parsed items in category "
                ++ categoryName ++ " does not match. Expected: "
                ++ toString totalItems ++ ", got: "
                ++ toString parts.length ++ "."))
            else .ok parts
      | _ => .error (.scrapeError "Failed to parse item and page numbers")
  match collected with
  | .error e => .error e
  | .ok parts =>
      if parts.length ≠ parts.dedup.length then
        .error (.scrapeError ("Unexpected repeating items in category "
          ++ categoryName ++ "."))
      else .ok parts

/-! ## Item / variant idempotent-skip (`PartScrape.scrape`,
scrape.py:322-324, and `ColoredPartScrape.scrape`, scrape.py:438-440) -/

/-- A persisted `Part` row (the fields the skip logic needs). -/
structure PartRow where
  itemId : String
deriving DecidableEq, Repr

/-- A persisted `ColoredPart` row key: `(part, color_id)`. -/
structure ColoredPartRow where
  partId : String
  colorId : String
deriving DecidableEq, Repr

/-- The persisted store visible to the traversal. -/
structure Store where
  parts : List PartRow
  coloredParts : List ColoredPartRow
deriving DecidableEq, Repr

/-- Result of one scrape step: raised exception (if any), the store
afterwards, and whether any page fetch was performed. -/
structure ScrapeStepResult where
  result : Except Err Unit
  store : Store
  fetched : Bool
deriving Repr

/-- `Part.select().where(Part.item_id == part_id).first()`
(scrape.py:287). -/
def partScrapeDbRecord (store : Store) (partId : String) : Option PartRow :=
  store.parts.find? (fun p => p.itemId == partId)

/-- `PartScrape.scrape` (scrape.py:322-369): `if self.db_record is not
None: return  # Part already scraped`; otherwise the body (fetch, parse,
create, per-color scrape) runs, abstracted as `doScrape`. -/
def partScrape (store : Store) (partId : String)
    (doScrape : Store → ScrapeStepResult) : ScrapeStepResult :=
  match partScrapeDbRecord store partId with
  | some _ => ⟨.ok (), store, false⟩
  | none => doScrape store

/-- `ColoredPart.select().where(part == ..., color_id == ...).first()`
(scrape.py:378-382). -/
def coloredPartDbRecord (store : Store) (partId colorId : String) :
    Option ColoredPartRow :=
  store.coloredParts.find? (fun c => c.partId == partId && c.colorId == colorId)

/-- `ColoredPartScrape.scrape` (scrape.py:438-489): `if self.db_record is
not None: raise RuntimeError("Colored part already scraped!")`; otherwise
the body runs, abstracted as `doScrape`. -/
def coloredPartScrape (store : Store) (partId colorId : String)
    (doScrape : Store → ScrapeStepResult) : ScrapeStepResult :=
  match coloredPartDbRecord store partId colorId with
  | some _ => ⟨.error (.runtimeError "Colored part already scraped!"), store, false⟩
  | none => doScrape store

/-! ## Process termination (`main`, main.py:58-96) -/

/-- The terminal conditions of `main`'s `try`/`except` around
`run_scrape()`. -/
inductive RunOutcome
  | completed
  | requestLimitReached
  | keyboardInterrupt
  | scrapeFailed (msg : String)
deriving DecidableEq, Repr

/-- The process exit code for each terminal condition (main.py:82-96):
normal completion falls through (exit 0), `RequestLimitReached` calls
`sys.exit(0)`, `KeyboardInterrupt` calls `sys.exit(3)`, `ScrapeError`
calls `sys.exit(2)`. -/
def exitCode : RunOutcome → Nat
  | .completed => 0
  | .requestLimitReached => 0
  | .keyboardInterrupt => 3
  | .scrapeFailed _ => 2

/-! ## Helper lemmas -/

theorem addEvents_result (evs : List TraceEvent) (r : DlResult) :
    (addEvents evs r).result = r.result := rfl

theorem insertEntryDesc_eq_cons (e : CacheEntry) (l : List CacheEntry)
    (h : ∀ x ∈ l, x.ts ≤ e.ts) : insertEntryDesc e l = e :: l := by
  cases l with
  | nil => rfl
  | cons x xs => simp [insertEntryDesc, h x (by simp)]

theorem sortCacheDesc_sorted_id (l : List CacheEntry)
    (h : l.Pairwise (fun a b => b.ts ≤ a.ts)) : sortCacheDesc l = l := by
  induction l with
  | nil => rfl
  | cons e rest ih =>
      rcases List.pairwise_cons.mp h with ⟨h1, h2⟩
      rw [sortCacheDesc, ih h2, insertEntryDesc_eq_cons e rest h1]

theorem closestTo_spec (target : Int) : ∀ (ts : List Int) (t : Int),
    (closestTo target t ts = t ∨ closestTo target t ts ∈ ts) ∧
    tsDiff target (closestTo target t ts) ≤ tsDiff target t ∧
    ∀ x ∈ ts, tsDiff target (closestTo target t ts) ≤ tsDiff target x := by
  intro ts
  induction ts with
  | nil => intro t; simp [closestTo]
  | cons x xs ih =>
      intro t
      by_cases hx : tsDiff target x < tsDiff target t
      · have hstep : closestTo target t (x :: xs) = closestTo target x xs := by
          simp [closestTo, hx]
        rcases ih x with ⟨hmem, hle, hall⟩
        rw [hstep]
        refine ⟨?_, le_trans hle (le_of_lt hx), ?_⟩
        · rcases hmem with h | h
          · exact Or.inr (by simp [h])
          · exact Or.inr (List.mem_cons_of_mem x h)
        · intro y hy
          rcases List.mem_cons.mp hy with rfl | hy
          · exact hle
          · exact hall y hy
      · have hstep : closestTo target t (x :: xs) = closestTo target t xs := by
          simp [closestTo, hx]
        rcases ih t with ⟨hmem, hle, hall⟩
        rw [hstep]
        refine ⟨?_, hle, ?_⟩
        · rcases hmem with h | h
          · exact Or.inl h
          · exact Or.inr (List.mem_cons_of_mem x h)
        · intro y hy
          rcases List.mem_cons.mp hy with rfl | hy
          · exact le_trans hle (Nat.le_of_not_lt hx)
          · exact hall y hy

theorem refreshFiles_ne_nil (now target : Int) (files : List Int) :
    refreshFiles now target files ≠ [] := by
  unfold refreshFiles
  split
  · simp
  · rename_i hcond
    intro h
    exact hcond (Or.inl h)

theorem length_eq_dedup_length_iff (l : List String) :
    l.length = l.dedup.length ↔ l.Nodup := by
  constructor
  · intro h
    have hsub := List.dedup_sublist l
    have heq : l.dedup = l := hsub.eq_of_length h.symm
    rw [← heq]
    exact l.nodup_dedup
  · intro h
    rw [List.dedup_eq_self.mpr h]

theorem downloadLoop_quota_exhaust (url : String) (allow : Option (String → Bool))
    (offR stR : Nat) :
    ∀ (steps : List Step) (sessions : List Session) (requests : Nat),
      sessions.length ≤ steps.length →
      (∀ st ∈ steps, quotaSignal st.outcome = true) →
      (downloadLoop url allow offR stR sessions requests steps).result
        = .error (.scrapeError "Bricklinks Quota Exceeded!") := by
  intro steps
  induction steps with
  | nil =>
      intro sessions requests hlen _hq
      have hnil : sessions = [] := List.eq_nil_of_length_eq_zero (Nat.le_zero.mp hlen)
      subst hnil
      rfl
  | cons st rest ih =>
      intro sessions requests hlen hq
      match sessions with
      | [] => rfl
      | s :: ss =>
          have hlen2 : ss.length ≤ rest.length := by
            simpa using Nat.succ_le_succ_iff.mp (by simpa using hlen)
          have hqs : quotaSignal st.outcome = true := hq st (by simp)
          have hqrest : ∀ x ∈ rest, quotaSignal x.outcome = true :=
            fun x hx => hq x (List.mem_cons_of_mem st hx)
          have hidx : st.choice % (s :: ss).length < (s :: ss).length :=
            Nat.mod_lt _ (by simp)
          have hlenErase :
              ((((s :: ss).set (st.choice % (s :: ss).length)
                  { (s :: ss).getD (st.choice % (s :: ss).length) s with
                    count := ((s :: ss).getD (st.choice % (s :: ss).length) s).count + 1
                  }).eraseIdx (st.choice % (s :: ss).length)).length ≤ rest.length) := by
            rw [List.length_eraseIdx]
            simp only [List.length_set]
            rw [if_pos hidx]
            simp only [List.length_cons]
            omega
          rcases houtcome : st.outcome with _ | msg | r
          · -- timeout
            rw [houtcome] at hqs
            simp only [downloadLoop, houtcome, addEvents_result]
            exact ih _ _ hlenErase hqrest
          · -- connection error classified as timeout
            rw [houtcome] at hqs
            simp only [quotaSignal] at hqs
            simp only [downloadLoop, houtcome, hqs, if_true, addEvents_result]
            exact ih _ _ hlenErase hqrest
          · -- response carrying a quota marker
            rw [houtcome] at hqs
            simp only [quotaSignal] at hqs
            simp only [downloadLoop, houtcome, hqs, if_true, addEvents_result]
            exact ih _ _ hlenErase hqrest

theorem downloadLoop_retry_step (url : String) (allow : Option (String → Bool))
    (offR stR i cnt requests ch : Nat) (rest : List Step) (r : HttpResponse)
    (hq : quotaSignal (.response r) = false) (hs : r.status ≠ 200)
    (hr : stR < MAX_REQUEST_RETRIES) :
    downloadLoop url allow offR stR [⟨i, cnt⟩] requests (⟨ch, .response r⟩ :: rest)
      = addEvents [.attempt i, .retrySleep]
          (downloadLoop url allow offR (stR + 1) [⟨i, cnt + 1⟩] (requests + 1) rest) := by
  simp only [quotaSignal] at hq
  simp [downloadLoop, hq, hs, hr, Nat.mod_one]

theorem downloadLoop_http_raise (url : String) (allow : Option (String → Bool))
    (offR stR i cnt requests ch : Nat) (rest : List Step) (r : HttpResponse)
    (hq : quotaSignal (.response r) = false)
    (hstR : ¬ stR < MAX_REQUEST_RETRIES)
    (h4 : 400 ≤ r.status) (h6 : r.status < 600) :
    downloadLoop url allow offR stR [⟨i, cnt⟩] requests (⟨ch, .response r⟩ :: rest)
      = ⟨.error (.httpError r.status), [⟨i, cnt + 1⟩], requests + 1, [.attempt i]⟩ := by
  simp only [quotaSignal] at hq
  simp [downloadLoop, hq, hstR, h4, h6, Nat.mod_one]

/-! ## Claim theorems -/

/-- C1: for every URL and cache timeout `T`, `get_page` returns the most
recent stored page version whose age is at most `T` with no network
activity (`download = none`) and an unchanged cache; if the most recent
stored version's age exceeds `T`, the request is a full miss: the result
is exactly the outcome of a fresh `_download_page` call and no older
stored version is ever substituted.  (Stored versions are assumed
readable; corrupt gzip entries are a separate, spec-sanctioned skip
path.) -/
theorem getPage_cache_freshness (url : String) (now T : Nat) (e : CacheEntry)
    (rest : List CacheEntry) (requestsLimit : Option Nat) (requests : Nat)
    (sessions : List Session) (allow : Option (String → Bool)) (steps : List Step)
    (hsorted : (e :: rest).Pairwise (fun a b => b.ts ≤ a.ts))
    (hok : ∀ x ∈ e :: rest, x.ok = true) :
    (now - e.ts ≤ T →
      getPage url now T (e :: rest) requestsLimit requests sessions allow steps
        = ⟨.ok ⟨e.body, e.ts⟩, e :: rest, none⟩
      ∧ ∀ x ∈ e :: rest, x.ts ≤ e.ts) ∧
    (now - e.ts > T →
      getPage url now T (e :: rest) requestsLimit requests sessions allow steps
        = (match (downloadPage url allow requestsLimit requests sessions steps).result with
           | .error err => ⟨.error err, e :: rest,
               some (downloadPage url allow requestsLimit requests sessions steps)⟩
           | .ok body => ⟨.ok ⟨body, now⟩, ⟨now, body, true⟩ :: e :: rest,
               some (downloadPage url allow requestsLimit requests sessions steps)⟩)) := by
  have hsort : sortCacheDesc (e :: rest) = e :: rest := sortCacheDesc_sorted_id _ hsorted
  constructor
  · intro hfresh
    constructor
    · have hnot : ¬ (now - e.ts > T) := Nat.not_lt.mpr hfresh
      simp [getPage, hsort, cacheLookup, hnot, hok e (by simp)]
    · intro x hx
      rcases List.mem_cons.mp hx with rfl | hx
      · exact le_refl _
      · exact (List.pairwise_cons.mp hsorted).1 x hx
  · intro hstale
    simp only [getPage, hsort, cacheLookup, if_pos hstale]

/-- C1 witness: a concrete fresh cache hit. -/
theorem getPage_cache_freshness_witness :
    (100 - 80 ≤ 50) ∧
    getPage "u" 100 50 [⟨80, "body", true⟩] none 0 [] none []
      = ⟨.ok ⟨"body", 80⟩, [⟨80, "body", true⟩], none⟩ :=
  ⟨by decide,
   ((getPage_cache_freshness "u" 100 50 ⟨80, "body", true⟩ [] none 0 [] none []
      (by simp) (by simp)).1 (by decide)).1⟩

/-- C2 counterexample: when the pool is exhausted the next attempt raises
`ScrapeError("Bricklinks Quota Exceeded!")` — the very same exception
class (`ScrapeError`) that structural failures such as an unexpected
redirect use — so the failure is not an error condition distinct from
structural scrape errors. -/
theorem quotaExhausted_is_scrapeError :
    (downloadPage "u" none none 0 [⟨0, 0⟩] [⟨0, .timeout⟩]).result
      = .error (.scrapeError "Bricklinks Quota Exceeded!")
    ∧ isScrapeError (.scrapeError "Bricklinks Quota Exceeded!") = true
    ∧ (downloadPage "u" none none 0 [⟨0, 0⟩]
        [⟨0, .response ⟨200, "https://example.com/other", "b", 1⟩⟩]).result
      = .error (.scrapeError
          "Unexpected redirect when downloading page: u -> https://example.com/other")
    ∧ isScrapeError (.scrapeError
        "Unexpected redirect when downloading page: u -> https://example.com/other")
      = true :=
  ⟨rfl, rfl, rfl, rfl⟩

/-- C2 (amended): for a pool of `N` identities, a run of at least `N`
quota signals retires every identity, and the attempt then fails by
raising `ScrapeError` with the quota-exceeded message — never any other
exception — but this is the same exception class as structural scrape
errors, distinguishable only by its message. -/
theorem downloadPage_quota_exhausted (url : String) (allow : Option (String → Bool))
    (sessions : List Session) (requests : Nat) (steps : List Step)
    (hlen : sessions.length ≤ steps.length)
    (hq : ∀ st ∈ steps, quotaSignal st.outcome = true) :
    (downloadPage url allow none requests sessions steps).result
      = .error (.scrapeError "Bricklinks Quota Exceeded!") := by
  simpa [downloadPage] using
    downloadLoop_quota_exhaust url allow 0 0 steps sessions requests hlen hq

/-- C2 witness: a pool of two identities and two quota signals. -/
theorem downloadPage_quota_exhausted_witness :
    ([(⟨0, 0⟩ : Session), ⟨1, 0⟩].length
        ≤ [(⟨0, .timeout⟩ : Step), ⟨1, .timeout⟩].length) ∧
    (downloadPage "u" none none 0 [⟨0, 0⟩, ⟨1, 0⟩]
        [⟨0, .timeout⟩, ⟨1, .timeout⟩]).result
      = .error (.scrapeError "Bricklinks Quota Exceeded!") :=
  ⟨by decide,
   downloadPage_quota_exhausted "u" none [⟨0, 0⟩, ⟨1, 0⟩] 0
     [⟨0, .timeout⟩, ⟨1, .timeout⟩] (by decide) (by decide)⟩

/-- C3 counterexample: with two live identities, a non-2xx response
followed by the backoff retry re-selects an identity at random — here the
retry attempt is issued by identity 1 although the failed attempt used
identity 0 — so the fetcher does not retry "without changing identity". -/
theorem retry_can_change_identity :
    (downloadLoop "u" none 0 0 [⟨0, 0⟩, ⟨1, 0⟩] 0
        [⟨0, .response ⟨500, "u", "t", 0⟩⟩, ⟨1, .response ⟨500, "u", "t", 0⟩⟩]).trace
      = [.attempt 0, .retrySleep, .attempt 1, .retrySleep]
    ∧ TraceEvent.attempt 0 ≠ TraceEvent.attempt 1 := by
  exact ⟨rfl, by decide⟩

/-- C3 (amended): with a single live identity (so the randomized
re-selection cannot change it), five consecutive responses with a 4xx/5xx
status and no quota marker each trigger a randomized retry-pause sleep
within the `MAX_REQUEST_RETRIES = 5` budget, and the sixth such response
raises the underlying HTTP error — not a quota error.  In general the
retry re-selects a random identity rather than pinning the current one
(see the counterexample). -/
theorem downloadLoop_retry_bound (url : String) (allow : Option (String → Bool))
    (i cnt requests c0 c1 c2 c3 c4 c5 : Nat) (r0 r1 r2 r3 r4 r5 : HttpResponse)
    (hq : ∀ r ∈ [r0, r1, r2, r3, r4, r5], quotaSignal (.response r) = false)
    (hlo : ∀ r ∈ [r0, r1, r2, r3, r4, r5], 400 ≤ r.status)
    (hhi : ∀ r ∈ [r0, r1, r2, r3, r4, r5], r.status < 600) :
    downloadLoop url allow 0 0 [⟨i, cnt⟩] requests
        [⟨c0, .response r0⟩, ⟨c1, .response r1⟩, ⟨c2, .response r2⟩,
         ⟨c3, .response r3⟩, ⟨c4, .response r4⟩, ⟨c5, .response r5⟩]
      = ⟨.error (.httpError r5.status), [⟨i, cnt + 6⟩], requests + 6,
         [.attempt i, .retrySleep, .attempt i, .retrySleep, .attempt i, .retrySleep,
          .attempt i, .retrySleep, .attempt i, .retrySleep, .attempt i]⟩ := by
  have hne : ∀ r ∈ [r0, r1, r2, r3, r4, r5], r.status ≠ 200 := by
    intro r hr
    have := hlo r hr
    omega
  rw [downloadLoop_retry_step url allow 0 0 i cnt requests c0 _ r0
        (hq r0 (by simp)) (hne r0 (by simp)) (by decide),
      downloadLoop_retry_step url allow 0 1 i (cnt + 1) (requests + 1) c1 _ r1
        (hq r1 (by simp)) (hne r1 (by simp)) (by decide),
      downloadLoop_retry_step url allow 0 2 i (cnt + 2) (requests + 2) c2 _ r2
        (hq r2 (by simp)) (hne r2 (by simp)) (by decide),
      downloadLoop_retry_step url allow 0 3 i (cnt + 3) (requests + 3) c3 _ r3
        (hq r3 (by simp)) (hne r3 (by simp)) (by decide),
      downloadLoop_retry_step url allow 0 4 i (cnt + 4) (requests + 4) c4 _ r4
        (hq r4 (by simp)) (hne r4 (by simp)) (by decide),
      downloadLoop_http_raise url allow 0 5 i (cnt + 5) (requests + 5) c5 _ r5
        (hq r5 (by simp)) (by decide) (hlo r5 (by simp)) (hhi r5 (by simp))]
  simp [addEvents]

/-- C3 witness: six 500 responses from a single identity. -/
theorem downloadLoop_retry_bound_witness :
    (∀ r ∈ [HttpResponse.mk 500 "u" "t" 0, ⟨500, "u", "t", 0⟩, ⟨500, "u", "t", 0⟩,
        ⟨500, "u", "t", 0⟩, ⟨500, "u", "t", 0⟩, ⟨500, "u", "t", 0⟩],
      quotaSignal (.response r) = false ∧ 400 ≤ r.status ∧ r.status < 600) ∧
    downloadLoop "u" none 0 0 [⟨7, 0⟩] 0
        [⟨0, .response ⟨500, "u", "t", 0⟩⟩, ⟨1, .response ⟨500, "u", "t", 0⟩⟩,
         ⟨2, .response ⟨500, "u", "t", 0⟩⟩, ⟨3, .response ⟨500, "u", "t", 0⟩⟩,
         ⟨4, .response ⟨500, "u", "t", 0⟩⟩, ⟨5, .response ⟨500, "u", "t", 0⟩⟩]
      = ⟨.error (.httpError 500), [⟨7, 6⟩], 6,
         [.attempt 7, .retrySleep, .attempt 7, .retrySleep, .attempt 7, .retrySleep,
          .attempt 7, .retrySleep, .attempt 7, .retrySleep, .attempt 7]⟩ :=
  ⟨by decide,
   downloadLoop_retry_bound "u" none 7 0 0 0 1 2 3 4 5
     ⟨500, "u", "t", 0⟩ ⟨500, "u", "t", 0⟩ ⟨500, "u", "t", 0⟩
     ⟨500, "u", "t", 0⟩ ⟨500, "u", "t", 0⟩ ⟨500, "u", "t", 0⟩
     (by decide) (by decide) (by decide)⟩

/-- C4: the conversion-rate lookup always succeeds and returns the
snapshot whose download time has the smallest absolute difference to the
target timestamp, regardless of direction; the too-far warning is emitted
exactly when that smallest difference exceeds the expiry window, and the
lookup still succeeds in that case. -/
theorem ratesForTimestamp_closest (now target : Int) (files : List Int) :
    (ratesForTimestamp now target files).isSome = true ∧
    ∀ r, ratesForTimestamp now target files = some r →
      r.chosen ∈ r.files ∧
      (∀ t ∈ r.files, tsDiff target r.chosen ≤ tsDiff target t) ∧
      r.warning
        = decide ((tsDiff target r.chosen : Int) > CONVERSION_RATES_EXPIRY_TIME) := by
  rcases hr : refreshFiles now target files with _ | ⟨t, ts⟩
  · exact absurd hr (refreshFiles_ne_nil now target files)
  · constructor
    · simp [ratesForTimestamp, hr]
    · intro r heq
      rw [ratesForTimestamp, hr] at heq
      rcases closestTo_spec target ts t with ⟨hmem, hle, hall⟩
      cases (Option.some.injEq ..).mp heq
      refine ⟨?_, ?_, rfl⟩
      · rcases hmem with h | h
        · simp [h]
        · exact List.mem_cons_of_mem t h
      · intro x hx
        rcases List.mem_cons.mp hx with rfl | hx
        · exact hle
        · exact hall x hx

/-- C4 witness: with snapshots at minutes 0 and 100, a lookup for t = 70
returns the 100 snapshot, one for t = 30 returns the 0 snapshot (both
within the 6-hour window, so no warning), and a lookup whose closest
difference exceeds the window still succeeds, with the warning set. -/
theorem ratesForTimestamp_closest_witness :
    ratesForTimestamp 100 70 [0, 100] = some ⟨[0, 100], 100, false⟩ ∧
    (∀ t ∈ [(0 : Int), 100], tsDiff 70 100 ≤ tsDiff 70 t) ∧
    ratesForTimestamp 100 30 [0, 100] = some ⟨[0, 100], 0, false⟩ ∧
    ratesForTimestamp 100 1000 [0] = some ⟨[0], 0, true⟩ :=
  ⟨rfl,
   fun t ht => ((ratesForTimestamp_closest 100 70 [0, 100]).2
     ⟨[0, 100], 100, false⟩ rfl).2.1 t ht,
   rfl, rfl⟩

/-- C5 counterexample: with a request limit that is configured and already
reached (`limit = 0`, `requests = 0`), a fetch satisfied by a fresh cache
entry succeeds normally instead of failing with `RequestLimitReached` —
the limit is only consulted on a cache miss, so not every fetch fails. -/
theorem limit_reached_cache_hit_succeeds :
    (0 : Nat) ≥ 0 ∧
    getPage "u" 10 100 [⟨5, "cached", true⟩] (some 0) 0 [] none []
      = ⟨.ok ⟨"cached", 5⟩, [⟨5, "cached", true⟩], none⟩ :=
  ⟨le_refl 0, rfl⟩

/-- C5 (amended): whenever a request-count limit is configured and
reached, every fetch that is not satisfied by the page cache fails
immediately — before any pause, attempt or session use (empty trace) —
with `RequestLimitReached`, an error distinct by construction from every
other failure; a fetch satisfied by the cache still succeeds. -/
theorem downloadPage_limit_reached (url : String) (now T : Nat)
    (cache : List CacheEntry) (l requests : Nat) (sessions : List Session)
    (allow : Option (String → Bool)) (steps : List Step)
    (hmiss : cacheLookup now T (sortCacheDesc cache) = none)
    (hlim : requests ≥ l) :
    getPage url now T cache (some l) requests sessions allow steps
      = ⟨.error .requestLimitReached, cache,
          some ⟨.error .requestLimitReached, sessions, requests, []⟩⟩ ∧
    ∀ (status : Nat) (m k : String),
      Err.requestLimitReached ≠ .httpError status ∧
      Err.requestLimitReached ≠ .scrapeError m ∧
      Err.requestLimitReached ≠ .connectionError m ∧
      Err.requestLimitReached ≠ .runtimeError m ∧
      Err.requestLimitReached ≠ .keyError k := by
  constructor
  · simp [getPage, hmiss, downloadPage, hlim]
  · intro status m k
    refine ⟨?_, ?_, ?_, ?_, ?_⟩ <;> intro h <;> cases h

/-- C5 witness: an empty cache with the limit already reached. -/
theorem downloadPage_limit_reached_witness :
    cacheLookup 10 100 (sortCacheDesc []) = none ∧ (0 : Nat) ≥ 0 ∧
    getPage "u" 10 100 [] (some 0) 0 [⟨0, 0⟩] none []
      = ⟨.error .requestLimitReached, [],
          some ⟨.error .requestLimitReached, [⟨0, 0⟩], 0, []⟩⟩ :=
  ⟨rfl, le_refl 0,
   (downloadPage_limit_reached "u" 10 100 [] 0 0 [⟨0, 0⟩] none [] rfl
     (le_refl 0)).1⟩

/-- C6: in the paginated item-list traversal, with the pagination banner
declaring `totalItems` items, a collected id list whose length differs
from the declared total raises a fatal `ScrapeError`, as does a collected
list of the right length containing a duplicate; only a complete,
pairwise-distinct id list is returned. -/
theorem scrapeParts_checks (categoryName firstSingleId : String)
    (partsCount totalItems totalPages : Nat) (firstHasPagination : Bool)
    (pageIds : Nat → List String)
    (hbr : ¬(partsCount = 1 ∧ firstHasPagination = false)) :
    ((collectedParts totalPages pageIds).length ≠ totalItems →
      scrapeParts categoryName partsCount firstHasPagination firstSingleId
          [(totalItems, 1, totalPages)] pageIds
        = .error (.scrapeError ("Total number or parsed items in category "
            ++ categoryName ++ " does not match. Expected: " ++ toString totalItems
            ++ ", got: " ++ toString (collectedParts totalPages pageIds).length
            ++ "."))) ∧
    ((collectedParts totalPages pageIds).length = totalItems →
      ¬(collectedParts totalPages pageIds).Nodup →
      scrapeParts categoryName partsCount firstHasPagination firstSingleId
          [(totalItems, 1, totalPages)] pageIds
        = .error (.scrapeError ("Unexpected repeating items in category "
            ++ categoryName ++ "."))) ∧
    ((collectedParts totalPages pageIds).length = totalItems →
      (collectedParts totalPages pageIds).Nodup →
      scrapeParts categoryName partsCount firstHasPagination firstSingleId
          [(totalItems, 1, totalPages)] pageIds
        = .ok (collectedParts totalPages pageIds)) := by
  refine ⟨?_, ?_, ?_⟩
  · intro hcount
    simp [scrapeParts, hbr, hcount]
  · intro hcount hdup
    have hne : (collectedParts totalPages pageIds).length
        ≠ (collectedParts totalPages pageIds).dedup.length := by
      intro h
      exact hdup ((length_eq_dedup_length_iff _).mp h)
    simp [scrapeParts, hbr, hcount, hne]
    omega
  · intro hcount hnodup
    have heq : (collectedParts totalPages pageIds).length
        = (collectedParts totalPages pageIds).dedup.length :=
      (length_eq_dedup_length_iff _).mpr hnodup
    simp [scrapeParts, hbr, hcount, heq]
    omega

/-- C6 witness: a banner declaring 5 items with only 4 distinct collected
ids raises the count-mismatch `ScrapeError`; 5 collected ids containing a
duplicate raise the repeating-items `ScrapeError`. -/
theorem scrapeParts_checks_witness :
    ((collectedParts 1 (fun n => if n = 1 then ["a", "b", "c", "d"] else [])).length
        ≠ 5) ∧
    scrapeParts "cat" 5 true "x" [(5, 1, 1)]
        (fun n => if n = 1 then ["a", "b", "c", "d"] else [])
      = .error (.scrapeError
          "Total number or parsed items in category cat does not match. Expected: 5, got: 4.") ∧
    ¬(collectedParts 1
        (fun n => if n = 1 then ["a", "b", "c", "d", "a"] else [])).Nodup ∧
    scrapeParts "cat" 5 true "x" [(5, 1, 1)]
        (fun n => if n = 1 then ["a", "b", "c", "d", "a"] else [])
      = .error (.scrapeError "Unexpected repeating items in category cat.") :=
  ⟨by decide,
   (scrapeParts_checks "cat" "x" 5 5 1 true
      (fun n => if n = 1 then ["a", "b", "c", "d"] else [])
      (by simp)).1 (by decide),
   by decide,
   ((scrapeParts_checks "cat" "x" 5 5 1 true
      (fun n => if n = 1 then ["a", "b", "c", "d", "a"] else [])
      (by simp)).2.1 (by decide)) (by decide)⟩

/-- C7 counterexample: scraping a variant whose record already exists does
not return silently — `ColoredPartScrape.scrape` raises
`RuntimeError("Colored part already scraped!")` (though it changes nothing
and fetches nothing). -/
theorem coloredPartScrape_existing_raises :
    coloredPartScrape ⟨[], [⟨"3005", "1"⟩]⟩ "3005" "1"
        (fun st => ⟨.ok (), st, true⟩)
      = ⟨.error (.runtimeError "Colored part already scraped!"),
          ⟨[], [⟨"3005", "1"⟩]⟩, false⟩ := rfl

/-- C7 (amended): traversal of an already-persisted Item is a silent
no-op — it returns without fetching or writing; traversal of an
already-persisted ItemVariant likewise fetches nothing and leaves the
store unchanged, but raises a `RuntimeError` instead of returning
silently. -/
theorem persisted_skip_behavior (store : Store) (partId colorId : String)
    (doPart doColored : Store → ScrapeStepResult)
    (hpart : (partScrapeDbRecord store partId).isSome = true)
    (hcol : (coloredPartDbRecord store partId colorId).isSome = true) :
    partScrape store partId doPart = ⟨.ok (), store, false⟩ ∧
    coloredPartScrape store partId colorId doColored
      = ⟨.error (.runtimeError "Colored part already scraped!"), store, false⟩ := by
  constructor
  · rcases Option.isSome_iff_exists.mp hpart with ⟨p, hp⟩
    simp [partScrape, hp]
  · rcases Option.isSome_iff_exists.mp hcol with ⟨c, hc⟩
    simp [coloredPartScrape, hc]

/-- C7 witness: a store holding both the part and the variant. -/
theorem persisted_skip_behavior_witness :
    (partScrapeDbRecord ⟨[⟨"3005"⟩], [⟨"3005", "1"⟩]⟩ "3005").isSome = true ∧
    (coloredPartDbRecord ⟨[⟨"3005"⟩], [⟨"3005", "1"⟩]⟩ "3005" "1").isSome = true ∧
    partScrape ⟨[⟨"3005"⟩], [⟨"3005", "1"⟩]⟩ "3005" (fun st => ⟨.ok (), st, true⟩)
      = ⟨.ok (), ⟨[⟨"3005"⟩], [⟨"3005", "1"⟩]⟩, false⟩ :=
  ⟨rfl, rfl,
   (persisted_skip_behavior ⟨[⟨"3005"⟩], [⟨"3005", "1"⟩]⟩ "3005" "1"
     (fun st => ⟨.ok (), st, true⟩) (fun st => ⟨.ok (), st, true⟩)
     rfl rfl).1⟩

/-- C8 counterexample: a currency code still unknown after mapping fails
the conversion with a `KeyError` (the uncaught dict subscript), which is
not a `ScrapeError`. -/
theorem unknown_currency_is_keyError :
    convertToEuro [("USD", 1)] "xyz" 5 = .error (.keyError "XYZ") ∧
    isScrapeError (.keyError "XYZ") = false :=
  ⟨rfl, rfl⟩

/-- C8 (amended): conversion normalizes the currency name by remapping
source-specific abbreviations through `CURRENCY_NAME_MAP` (on the
lower-cased input) and upper-casing the result, so unmapped codes are
upper-cased and used as-is; a known code converts by dividing by its rate,
and a code still unknown after mapping fails the conversion with a
`KeyError` — not a `ScrapeError`. -/
theorem convertToEuro_normalization (rates : List (String × ℚ))
    (currency : String) (amount : ℚ) :
    (∀ rate, rates.lookup (normalizedCurrencyCode currency) = some rate →
      convertToEuro rates currency amount = .ok (amount / rate)) ∧
    (rates.lookup (normalizedCurrencyCode currency) = none →
      convertToEuro rates currency amount
        = .error (.keyError (normalizedCurrencyCode currency))) ∧
    isScrapeError (.keyError (normalizedCurrencyCode currency)) = false ∧
    normalizedCurrencyCode "us" = "USD" ∧ normalizedCurrencyCode "US" = "USD" ∧
    normalizedCurrencyCode "rol" = "RON" ∧ normalizedCurrencyCode "au" = "AUD" ∧
    normalizedCurrencyCode "ca" = "CAD" ∧ normalizedCurrencyCode "xyz" = "XYZ" := by
  refine ⟨?_, ?_, rfl, rfl, rfl, rfl, rfl, rfl, rfl⟩
  · intro rate h
    simp [convertToEuro, h]
  · intro h
    simp [convertToEuro, h]

/-- C8 witness: the bricklink abbreviation "us" converts through the
standard code "USD"; a code unknown after mapping raises `KeyError`. -/
theorem convertToEuro_normalization_witness :
    ([("USD", (2 : ℚ))].lookup (normalizedCurrencyCode "us") = some 2) ∧
    convertToEuro [("USD", (2 : ℚ))] "us" 4 = .ok (4 / 2) ∧
    ([("USD", (2 : ℚ))].lookup (normalizedCurrencyCode "xyz") = none) ∧
    convertToEuro [("USD", (2 : ℚ))] "xyz" 4 = .error (.keyError "XYZ") :=
  ⟨rfl,
   (convertToEuro_normalization [("USD", 2)] "us" 4).1 2 rfl,
   rfl,
   (convertToEuro_normalization [("USD", 2)] "xyz" 4).2.1 rfl⟩

/-- C9 counterexample: normal completion and request-limit-reached are two
different terminal conditions with the same exit code 0, so the three
terminal conditions do not all carry distinct exit codes. -/
theorem completed_and_limit_share_exit_code :
    exitCode .completed = exitCode .requestLimitReached ∧
    RunOutcome.completed ≠ RunOutcome.requestLimitReached := by
  exact ⟨rfl, by decide⟩

/-- C9 (amended): a fatal scrape error exits with code 2 and an operator
interrupt with code 3, each distinct from the success code, but normal
completion and graceful limit-reached termination share exit code 0 and
are not distinguishable by exit code. -/
theorem exitCode_classification (msg : String) :
    exitCode .completed = 0 ∧
    exitCode .requestLimitReached = 0 ∧
    exitCode (.scrapeFailed msg) = 2 ∧
    exitCode .keyboardInterrupt = 3 ∧
    exitCode (.scrapeFailed msg) ≠ exitCode .completed ∧
    exitCode (.scrapeFailed msg) ≠ exitCode .requestLimitReached ∧
    exitCode .completed = exitCode .requestLimitReached := by
  simp [exitCode]

/-- C10: the page cache is unchanged by every failed fetch — a new cache
entry (timestamped `now`, holding the downloaded body) appears exactly
when `_download_page` returned successfully, i.e. after the fully
redirect-validated download. -/
theorem getPage_cache_write_only_on_success (url : String) (now T : Nat)
    (cache : List CacheEntry) (requestsLimit : Option Nat) (requests : Nat)
    (sessions : List Session) (allow : Option (String → Bool)) (steps : List Step) :
    (getPage url now T cache requestsLimit requests sessions allow steps).cacheAfter
      = cache
    ∨ ∃ body,
        (downloadPage url allow requestsLimit requests sessions steps).result
          = .ok body ∧
        (getPage url now T cache requestsLimit requests sessions allow steps).page
          = .ok ⟨body, now⟩ ∧
        (getPage url now T cache requestsLimit requests sessions allow steps).cacheAfter
          = ⟨now, body, true⟩ :: cache := by
  rcases hcl : cacheLookup now T (sortCacheDesc cache) with _ | e
  · rcases hdl : (downloadPage url allow requestsLimit requests sessions steps).result
      with err | body
    · left
      simp [getPage, hcl, hdl]
    · right
      refine ⟨body, rfl, ?_, ?_⟩
      · simp [getPage, hcl, hdl]
      · simp [getPage, hcl, hdl]
  · left
    simp [getPage, hcl]

end Bricklink
